import Mathlib

/-!
Verification of the Bank-Assistant-RAG repository against its
natural-language specification.

Part 1 embeds the React frontend handler `handleSubmit` from
`src/frontend/src/App.js` as a pure trace-producing function: the
stateful JS handler is modelled by the list of observable events it
performs (state setters, network request start/completion, console
logging), with the outcomes of the two awaited `fetch` calls and of the
JSON decoding supplied as explicit oracle parameters.

Part 2 models the RAG backend (chunker, vector index search, retriever,
answer generator, index manager) from the specification, since the
backend sources are not part of the repository snapshot; each such
definition is marked `Modelled from the spec:`.
-/

/-- An uploaded file, abstracted to its content identity. -/
abbrev DocFile := String

/-- The React component state relevant to the handlers:
`question`, `response`, `loading`, `file` (App.js lines 5-8). -/
structure AppState where
  question : String
  response : String
  loading : Bool
  file : Option DocFile
deriving DecidableEq, Repr

/-- The JSON body sent to `/query`: `JSON.stringify({ question })`
serializes an object with exactly the one field `question`
(App.js line 31). -/
structure QueryBody where
  question : String
deriving DecidableEq, Repr

/-- A network request issued by the handler: either the multipart POST
to `/add-document` carrying the selected file, or the JSON POST to
`/query`. -/
inductive Request where
  | addDocument (doc : DocFile)
  | query (body : QueryBody)
deriving DecidableEq, Repr

/-- Observable events of a `handleSubmit` invocation, in program order. -/
inductive Event where
  | setLoading (b : Bool)
  | requestStart (r : Request)
  | requestEnd (r : Request)
  | setResponse (s : String)
  | setFile (f : Option DocFile)
  | consoleError
deriving DecidableEq, Repr

/-- Outcome oracle for the awaited `/add-document` fetch: it either
resolves or rejects (throws at the `await`). -/
inductive AddDocNet where
  | ok
  | throws
deriving DecidableEq, Repr

/-- Outcome oracle for the `/query` fetch and the subsequent
`response.json()` decoding: the fetch may reject, the JSON decoding may
reject, or both resolve yielding `data.answer`. -/
inductive QueryNet where
  | fetchThrows
  | jsonThrows
  | ok (answer : String)
deriving DecidableEq, Repr

/-- The fixed fallback string from the catch block (App.js line 37). -/
def errMsg : String := "Sorry, there was an error processing your request."

/-- Events of the query half of the try block (App.js lines 26-34): start
the `/query` fetch with body `{question}`; on rejection jump to the catch
block (log, set fallback response); otherwise the request completes, then
`response.json()` either rejects (catch block) or yields `data.answer`,
which is stored via `setResponse`. -/
def queryEvents (question : String) (qNet : QueryNet) : List Event :=
  Event.requestStart (Request.query ⟨question⟩) ::
  match qNet with
  | QueryNet.fetchThrows => [Event.consoleError, Event.setResponse errMsg]
  | QueryNet.jsonThrows =>
      [Event.requestEnd (Request.query ⟨question⟩),
       Event.consoleError, Event.setResponse errMsg]
  | QueryNet.ok a =>
      [Event.requestEnd (Request.query ⟨question⟩), Event.setResponse a]

/-- Trace of one invocation of `handleSubmit` (App.js lines 10-41, first
copy of the component): `setLoading(true)`; if a file is selected, POST it
to `/add-document` and await completion (a rejection jumps to the catch
block and the query is never issued); then POST the question to `/query`
and store the decoded answer; any rejection is caught, logged, and turned
into the fixed fallback response; the finally block runs
`setLoading(false)` on every path. -/
def handleSubmit (file : Option DocFile) (question : String)
    (addNet : AddDocNet) (qNet : QueryNet) : List Event :=
  Event.setLoading true ::
  (match file with
   | some f =>
       Event.requestStart (Request.addDocument f) ::
       (match addNet with
        | AddDocNet.throws => [Event.consoleError, Event.setResponse errMsg]
        | AddDocNet.ok =>
            Event.requestEnd (Request.addDocument f) ::
            queryEvents question qNet)
   | none => queryEvents question qNet) ++
  [Event.setLoading false]

/-- Trace of one invocation of `handleSubmit` in the second copy of the
component (App.js lines 133-164), transcribed from that copy: identical
control flow and effects to the first copy. -/
def handleSubmitV2 (file : Option DocFile) (question : String)
    (addNet : AddDocNet) (qNet : QueryNet) : List Event :=
  Event.setLoading true ::
  (match file with
   | some f =>
       Event.requestStart (Request.addDocument f) ::
       (match addNet with
        | AddDocNet.throws => [Event.consoleError, Event.setResponse errMsg]
        | AddDocNet.ok =>
            Event.requestEnd (Request.addDocument f) ::
            queryEvents question qNet)
   | none => queryEvents question qNet) ++
  [Event.setLoading false]

/-- `handleFileChange` (App.js lines 43-45) stores `e.target.files[0]`:
the first file of the selection, or nothing when the selection is empty. -/
def handleFileChange (files : List DocFile) : Event :=
  Event.setFile (files.get? 0)

/-- Effect of one event on the component state. -/
def applyEvent (s : AppState) : Event → AppState
  | Event.setLoading b => { s with loading := b }
  | Event.setResponse r => { s with response := r }
  | Event.setFile f => { s with file := f }
  | _ => s

/-- Run a trace of events from a starting state. -/
def run (s : AppState) (es : List Event) : AppState :=
  es.foldl applyEvent s

/-- `true` iff every `/query` request start in the trace is strictly
preceded by a completed `/add-document` request. -/
def queryAfterAddDocEnd (seen : Bool) : List Event → Bool
  | [] => true
  | Event.requestEnd (Request.addDocument _) :: es => queryAfterAddDocEnd true es
  | Event.requestStart (Request.query _) :: es => seen && queryAfterAddDocEnd seen es
  | _ :: es => queryAfterAddDocEnd seen es

/-- `true` iff every request start/end in the trace happens while the
tracked `loading` flag is `true` (the flag is updated by `setLoading`
events as the trace is scanned). -/
def requestsWhileLoading (l : Bool) : List Event → Bool
  | [] => true
  | Event.setLoading b :: es => requestsWhileLoading b es
  | Event.requestStart _ :: es => l && requestsWhileLoading l es
  | Event.requestEnd _ :: es => l && requestsWhileLoading l es
  | _ :: es => requestsWhileLoading l es

/-- C1: if the `/add-document` fetch, the `/query` fetch, or the JSON
decoding of the `/query` response throws, `handleSubmit` sets the
response state to the fixed fallback string and, being modelled as a
total function, propagates no exception. -/
theorem handleSubmit_error_fallback (st : AppState) (file : Option DocFile)
    (q : String) (addNet : AddDocNet) (qNet : QueryNet)
    (h : (file.isSome ∧ addNet = AddDocNet.throws) ∨
         qNet = QueryNet.fetchThrows ∨ qNet = QueryNet.jsonThrows) :
    (run st (handleSubmit file q addNet qNet)).response = errMsg := by
  cases file <;> cases addNet <;> cases qNet <;>
    simp_all [handleSubmit, queryEvents, run, applyEvent]

/-- Witness for C1 at a concrete input: a rejected `/query` fetch with no
file selected yields the fallback response. -/
theorem handleSubmit_error_fallback_witness :
    (run ⟨"q", "", false, none⟩
        (handleSubmit none "q" AddDocNet.ok QueryNet.fetchThrows)).response = errMsg :=
  handleSubmit_error_fallback ⟨"q", "", false, none⟩ none "q" AddDocNet.ok
    QueryNet.fetchThrows (Or.inr (Or.inl rfl))

/-- C2: with a file selected, the `/add-document` POST is issued, and any
`/query` request start in the trace is strictly preceded by the completed
`/add-document` request, so the query is never in flight while the upload
is pending. -/
theorem handleSubmit_addDoc_before_query (f : DocFile) (q : String)
    (addNet : AddDocNet) (qNet : QueryNet) :
    Event.requestStart (Request.addDocument f) ∈
        handleSubmit (some f) q addNet qNet ∧
    queryAfterAddDocEnd false (handleSubmit (some f) q addNet qNet) = true := by
  cases addNet <;> cases qNet <;>
    simp [handleSubmit, queryEvents, queryAfterAddDocEnd]

/-- C7: every `/query` request issued by `handleSubmit` carries exactly
the body `{question}`; `QueryBody` has no top-k field, mirroring
`JSON.stringify({ question })`. -/
theorem handleSubmit_query_body (file : Option DocFile) (q : String)
    (addNet : AddDocNet) (qNet : QueryNet) (b : QueryBody)
    (h : Event.requestStart (Request.query b) ∈ handleSubmit file q addNet qNet) :
    b = ⟨q⟩ := by
  cases file <;> cases addNet <;> cases qNet <;>
    simp_all [handleSubmit, queryEvents]

/-- Witness for C7 at a concrete input: the successful no-file submission
of question "hi" issues the query body ⟨"hi"⟩. -/
theorem handleSubmit_query_body_witness : (⟨"hi"⟩ : QueryBody) = ⟨"hi"⟩ :=
  handleSubmit_query_body none "hi" AddDocNet.ok (QueryNet.ok "a") ⟨"hi"⟩
    (by decide)

/-- C8: the two copies of the component concatenated in App.js have
extensionally equal `handleSubmit` handlers: identical traces for every
initial file/question state and every outcome of the two fetches. -/
theorem handleSubmit_versions_equal (file : Option DocFile) (q : String)
    (addNet : AddDocNet) (qNet : QueryNet) :
    handleSubmit file q addNet qNet = handleSubmitV2 file q addNet qNet := rfl

/-- C9: every network request event happens while `loading` is `true`,
and `loading` is `false` once the invocation finishes, on success and
failure alike. -/
theorem handleSubmit_loading_invariant (st : AppState) (file : Option DocFile)
    (q : String) (addNet : AddDocNet) (qNet : QueryNet) :
    requestsWhileLoading st.loading (handleSubmit file q addNet qNet) = true ∧
    (run st (handleSubmit file q addNet qNet)).loading = false := by
  cases file <;> cases addNet <;> cases qNet <;>
    simp [handleSubmit, queryEvents, requestsWhileLoading, run, applyEvent]

/-- C10: `handleSubmit` never changes the `file` state, so the selected
file persists across submissions; and `handleFileChange` stores only the
first file of the selection. -/
theorem handleSubmit_preserves_file (st : AppState) (file : Option DocFile)
    (q : String) (addNet : AddDocNet) (qNet : QueryNet) (files : List DocFile) :
    (run st (handleSubmit file q addNet qNet)).file = st.file ∧
    handleFileChange files = Event.setFile files.head? := by
  refine ⟨?_, ?_⟩
  · cases file <;> cases addNet <;> cases qNet <;>
      simp [handleSubmit, queryEvents, run, applyEvent]
  · cases files <;> simp [handleFileChange]

/-!
Part 2: the RAG backend. The repository snapshot ships only the frontend,
the README and `requirements.txt`; the backend package (`app.ingest`,
`app.main`, chunker, FAISS index, retriever) is absent, so the following
definitions are modelled from the specification text.
-/

/-- Modelled from the spec: a Chunk belongs to one Document and carries
its index within the document and its text span (spec section 3). -/
structure Chunk where
  docId : Nat
  idx : Nat
  text : String
deriving DecidableEq, Repr

/-- An embedding vector; integer components model the fixed-dimension
numeric vector of the spec. -/
abbrev Embedding := List Int

/-- Dot-product similarity, the fixed metric used both at ingestion and
query time (spec section 4.3: pick one metric and keep it consistent). -/
def dot : Embedding → Embedding → Int
  | [], _ => 0
  | _, [] => 0
  | a :: as, b :: bs => a * b + dot as bs

/-- Modelled from the spec: an Index Snapshot is an immutable structure
holding the ordered list of chunks it was built from, each with its
embedding (spec section 3). -/
structure Snapshot where
  chunks : List (Chunk × Embedding)
deriving DecidableEq, Repr

/-- One entry of a Retrieval Result: a chunk, its original insertion
position in the snapshot, and its similarity score. -/
structure SearchHit where
  chunk : Chunk
  pos : Nat
  score : Int
deriving DecidableEq, Repr

/-- The snapshot's chunks scored against a query vector, tagged with
their insertion positions. -/
def hitsOf (snap : Snapshot) (qv : Embedding) : List SearchHit :=
  snap.chunks.enum.map (fun p => ⟨p.2.1, p.1, dot qv p.2.2⟩)

/-- Ranking order on hits: higher score first; equal scores ordered by
original insertion position (spec section 4.3: ties broken by original
chunk insertion order). -/
def hitLE (a b : SearchHit) : Prop :=
  b.score < a.score ∨ (a.score = b.score ∧ a.pos ≤ b.pos)

instance : DecidableRel hitLE := fun a b => by
  unfold hitLE; infer_instance

instance : IsTotal SearchHit hitLE where
  total a b := by
    rcases lt_trichotomy a.score b.score with h | h | h
    · exact Or.inr (Or.inl h)
    · rcases Nat.le_total a.pos b.pos with hp | hp
      · exact Or.inl (Or.inr ⟨h, hp⟩)
      · exact Or.inr (Or.inr ⟨h.symm, hp⟩)
    · exact Or.inl (Or.inl h)

instance : IsTrans SearchHit hitLE where
  trans a b c hab hbc := by
    rcases hab with h1 | ⟨h1, h1p⟩ <;> rcases hbc with h2 | ⟨h2, h2p⟩
    · exact Or.inl (by omega)
    · exact Or.inl (by omega)
    · exact Or.inl (by omega)
    · exact Or.inr ⟨by omega, by omega⟩

/-- Modelled from the spec: `search(snapshot, query vector, k)` returns
the k nearest chunks under the fixed similarity metric, most similar
first, ties broken by insertion order (stable sort) and k clamped to the
available chunk count (spec section 4.3). -/
def search (snap : Snapshot) (qv : Embedding) (k : Nat) : List SearchHit :=
  (List.insertionSort hitLE (hitsOf snap qv)).take (min k snap.chunks.length)

/-- The insertion positions tagged onto the scored hits are exactly the
enumeration indices of the snapshot's chunk list. -/
theorem map_pos_hitsOf (snap : Snapshot) (qv : Embedding) :
    (hitsOf snap qv).map SearchHit.pos = snap.chunks.enum.map Prod.fst := by
  simp only [hitsOf, List.map_map]
  rfl

/-- Sorting the hits preserves the distinctness of insertion positions. -/
theorem sorted_hits_pos_nodup (snap : Snapshot) (qv : Embedding) :
    ((List.insertionSort hitLE (hitsOf snap qv)).map SearchHit.pos).Nodup := by
  have hperm : List.Perm (List.insertionSort hitLE (hitsOf snap qv)) (hitsOf snap qv) :=
    List.perm_insertionSort hitLE (hitsOf snap qv)
  have h2 : ((hitsOf snap qv).map SearchHit.pos).Nodup := by
    rw [map_pos_hitsOf]
    exact List.nodup_enum_map_fst _
  exact ((hperm.map SearchHit.pos).nodup_iff).mpr h2

/-- C3: for every query over any snapshot, the Retrieval Result has
length `min k (number of chunks)` (so at most the requested k, with k
clamped to the available chunk count), similarity scores are
non-increasing by position, and ties are broken by original chunk
insertion order. -/
theorem search_sorted_and_clamped (snap : Snapshot) (qv : Embedding) (k : Nat) :
    (search snap qv k).length = min k snap.chunks.length ∧
    (search snap qv k).Pairwise (fun a b =>
      b.score < a.score ∨ (a.score = b.score ∧ a.pos < b.pos)) := by
  constructor
  · simp only [search, List.length_take, List.length_insertionSort, hitsOf,
      List.length_map, List.enum_length]
    omega
  · have hsorted : (List.insertionSort hitLE (hitsOf snap qv)).Pairwise hitLE :=
      List.sorted_insertionSort hitLE (hitsOf snap qv)
    have hne : (List.insertionSort hitLE (hitsOf snap qv)).Pairwise
        (fun a b => a.pos ≠ b.pos) :=
      List.pairwise_map.mp (sorted_hits_pos_nodup snap qv)
    have hcomb : (List.insertionSort hitLE (hitsOf snap qv)).Pairwise
        (fun a b => b.score < a.score ∨ (a.score = b.score ∧ a.pos < b.pos)) := by
      refine (hsorted.and hne).imp ?_
      rintro a b ⟨h1 | ⟨hs, hp⟩, hne2⟩
      · exact Or.inl h1
      · exact Or.inr ⟨hs, lt_of_le_of_ne hp hne2⟩
    exact List.Pairwise.sublist (List.take_sublist _ _) hcomb

/-- Modelled from the spec: `retrieve(question, k)` embeds the question,
takes the current snapshot and calls `search`; an empty snapshot yields
an empty Retrieval Result rather than failing (spec section 4.5). -/
def retrieve (embed : String → Embedding) (snap : Snapshot)
    (question : String) (k : Nat) : List SearchHit :=
  search snap (embed question) k

/-- Modelled from the spec: the fallback prompt used when the Retrieval
Result is empty — it explicitly tells the model no context was found so
it can decline rather than hallucinate (spec section 4.6). -/
def noContextPrompt (question : String) : String :=
  "No context was found in the knowledge base. Say that you cannot " ++
  "answer from the documents rather than guessing.\n\nQuestion: " ++ question

/-- Modelled from the spec: the grounded prompt used when context is
present — retrieved chunk texts in returned order, then the question,
with the instruction to answer only from the given context. -/
def contextPrompt (ctx : List String) (question : String) : String :=
  "Answer only from the given context.\n\nContext:\n" ++
  String.intercalate "\n" ctx ++ "\n\nQuestion: " ++ question

/-- Modelled from the spec: prompt assembly of the Answer Generator
(spec section 4.6). -/
def buildPrompt (question : String) (hits : List SearchHit) : String :=
  if hits.isEmpty then noContextPrompt question
  else contextPrompt (hits.map (fun h => h.chunk.text)) question

/-- An Answer: generated text plus the chunks used to produce it
(spec section 3). -/
structure Answer where
  text : String
  sources : List Chunk
deriving DecidableEq, Repr

/-- Modelled from the spec: `generate(question, retrieval result)` calls
the language-model capability once on the assembled prompt and records
the chunks used (spec section 4.6). -/
def generate (llm : String → String) (question : String)
    (hits : List SearchHit) : Answer :=
  ⟨llm (buildPrompt question hits), hits.map (fun h => h.chunk)⟩

/-- Modelled from the spec: `answerQuestion(question, k)`, the single
query entry point: retrieve then generate (spec section 6). -/
def answerQuestion (embed : String → Embedding) (llm : String → String)
    (snap : Snapshot) (question : String) (k : Nat) : Answer :=
  generate llm question (retrieve embed snap question k)

/-- C4: on a snapshot with zero chunks, `retrieve` returns the empty
Retrieval Result rather than failing, and the generated Answer cites no
chunks and is produced from the prompt that states no context was
found. -/
theorem emptyIndex_fallback (embed : String → Embedding)
    (llm : String → String) (snap : Snapshot) (q : String) (k : Nat)
    (h : snap.chunks = []) :
    retrieve embed snap q k = [] ∧
    answerQuestion embed llm snap q k = ⟨llm (noContextPrompt q), []⟩ := by
  have hr : retrieve embed snap q k = [] := by
    simp [retrieve, search, hitsOf, h]
  refine ⟨hr, ?_⟩
  simp [answerQuestion, generate, buildPrompt, hr]

/-- Witness for C4 at a concrete input: the empty snapshot with an
identity language model and a trivial embedder. -/
theorem emptyIndex_fallback_witness :
    retrieve (fun _ => ([] : Embedding)) ⟨[]⟩ "hello" 4 = [] ∧
    answerQuestion (fun _ => ([] : Embedding)) (fun p => p) ⟨[]⟩ "hello" 4 =
      ⟨noContextPrompt "hello", []⟩ :=
  emptyIndex_fallback (fun _ => ([] : Embedding)) (fun p => p) ⟨[]⟩ "hello" 4 rfl

/-- Modelled from the spec: the chunker's worker — split the document's
word list into passages of `size` words, advancing by `step` words so
consecutive passages overlap, never dropping trailing content shorter
than `size` (spec section 4.1); `fuel` bounds recursion depth and is
instantiated with the word count. -/
def chunkGo (size step : Nat) : Nat → List String → List (List String)
  | 0, _ => []
  | _, [] => []
  | fuel + 1, ws =>
      ws.take size ::
      (if ws.length ≤ size then []
       else chunkGo size step fuel (ws.drop (max 1 step)))

/-- Modelled from the spec: `chunk(document)` — deterministic split of a
document's text into overlapping word-window passages (spec section 4.1). -/
def chunkDoc (size step : Nat) (doc : String) : List String :=
  (chunkGo size step (doc.splitOn " ").length (doc.splitOn " ")).map
    (String.intercalate " ")

/-- C5: chunking is deterministic — two calls on the same document text
yield identical chunk sequences: the same number of chunks, with the same
text, in the same order. -/
theorem chunkDoc_deterministic (size step : Nat) (d d' : String)
    (h : d = d') :
    chunkDoc size step d = chunkDoc size step d' ∧
    (chunkDoc size step d).length = (chunkDoc size step d').length ∧
    ∀ i, (chunkDoc size step d).get? i = (chunkDoc size step d').get? i := by
  subst h
  exact ⟨rfl, rfl, fun _ => rfl⟩

/-- Witness for C5 at a concrete input: a five-word document chunked into
three-word windows with one word of overlap. -/
theorem chunkDoc_deterministic_witness :
    chunkDoc 3 2 "a b c d e" = chunkDoc 3 2 "a b c d e" ∧
    (chunkDoc 3 2 "a b c d e").length = (chunkDoc 3 2 "a b c d e").length ∧
    ∀ i, (chunkDoc 3 2 "a b c d e").get? i = (chunkDoc 3 2 "a b c d e").get? i :=
  chunkDoc_deterministic 3 2 "a b c d e" "a b c d e" rfl

/-- Modelled from the spec: ingest one document — chunk its text, embed
each chunk, and tag chunks with the document id and their index within
the document (spec section 4.7). -/
def ingestDoc (embed : String → Embedding) (size step : Nat)
    (docId : Nat) (text : String) : List (Chunk × Embedding) :=
  (chunkDoc size step text).enum.map
    (fun p => (⟨docId, p.1, p.2⟩, embed p.2))

/-- Modelled from the spec: the post-add snapshot built off to the side
by `addDocument` — all previously ingested chunks plus the new
document's chunks (spec section 4.4). -/
def buildSnapshot (embed : String → Embedding) (size step : Nat)
    (docId : Nat) (old : Snapshot) (text : String) : Snapshot :=
  ⟨old.chunks ++ ingestDoc embed size step docId text⟩

/-- Phase of the writer executing `addDocument`: not yet started, midway
through building the new snapshot in private scratch space (`done` work
units finished), or having published it. -/
inductive Phase where
  | idle
  | building (done : Nat)
  | published
deriving DecidableEq, Repr

/-- The state visible to the system: the currently published snapshot
(read lock-free by `current()`) and the writer's phase. -/
structure SysState where
  current : Snapshot
  phase : Phase
deriving DecidableEq, Repr

/-- Modelled from the spec: small-step semantics of `addDocument` running
concurrently with readers (spec sections 4.4 and 5). Building happens off
to the side and never touches the published reference; publication is a
single atomic swap installing the fully built snapshot `new`. -/
inductive AddDocStep (new : Snapshot) : SysState → SysState → Prop where
  | start (s : Snapshot) :
      AddDocStep new ⟨s, Phase.idle⟩ ⟨s, Phase.building 0⟩
  | work (s : Snapshot) (n : Nat) :
      AddDocStep new ⟨s, Phase.building n⟩ ⟨s, Phase.building (n + 1)⟩
  | publish (s : Snapshot) (n : Nat) :
      AddDocStep new ⟨s, Phase.building n⟩ ⟨new, Phase.published⟩

/-- C6: every state reachable while `addDocument` runs from the
pre-add snapshot `old` publishes either the complete pre-add snapshot or
the complete post-add snapshot, never a partially built or mixed index:
a concurrent reader of `current` observes one of the two full snapshots. -/
theorem addDocument_atomic (embed : String → Embedding) (size step : Nat)
    (docId : Nat) (old : Snapshot) (text : String) (s : SysState)
    (h : Relation.ReflTransGen
        (AddDocStep (buildSnapshot embed size step docId old text))
        ⟨old, Phase.idle⟩ s) :
    s.current = old ∨
    s.current = buildSnapshot embed size step docId old text := by
  induction h with
  | refl => exact Or.inl rfl
  | tail _ hstep ih =>
      cases hstep with
      | start s => exact ih
      | work s n => exact ih
      | publish s n => exact Or.inr rfl

/-- Witness for C6 at a concrete input: starting from the empty snapshot,
stepping through start, one unit of building work, and the publish swap
reaches a state whose published snapshot is the full post-add one. -/
theorem addDocument_atomic_witness :
    (⟨buildSnapshot (fun _ => ([] : Embedding)) 3 2 0 ⟨[]⟩ "a b c d e",
        Phase.published⟩ : SysState).current = (⟨[]⟩ : Snapshot) ∨
    (⟨buildSnapshot (fun _ => ([] : Embedding)) 3 2 0 ⟨[]⟩ "a b c d e",
        Phase.published⟩ : SysState).current =
      buildSnapshot (fun _ => ([] : Embedding)) 3 2 0 ⟨[]⟩ "a b c d e" :=
  addDocument_atomic (fun _ => ([] : Embedding)) 3 2 0 ⟨[]⟩ "a b c d e" _
    (Relation.ReflTransGen.tail
      (Relation.ReflTransGen.tail
        (Relation.ReflTransGen.tail Relation.ReflTransGen.refl
          (AddDocStep.start _))
        (AddDocStep.work _ 0))
      (AddDocStep.publish _ 1))
